import Mathlib

/-!
Verification of the OpenEye surveillance core: a shallow embedding of the
alert manager (throttling, quiet hours, triggers), the recorder and
per-camera processing loop, the face recognition manager, and the
WebSocket connection manager, with theorems settling the specified
behaviour of each against the embedded source.

Files embedded (backend/core of the repository):
  alert_manager.py, motion_detector.py, camera_manager.py, recorder.py,
  face_recognition.py, websocket_manager.py.

Conventions: wall-clock instants are integers (seconds); time of day is a
`Nat` of minutes past midnight (the parsed form of an "HH:MM" string);
Python dicts keyed by strings or integers are association lists in
insertion order; external library outcomes (OpenCV contours, the dlib
face embeddings and distances, whether a video writer opens) are inputs
to the embedded functions.
-/

set_option linter.unusedVariables false

/-! ## Python containers -/

/-- Python dict lookup `d.get(k)` (also how the SQLAlchemy
`query.filter(key == k).first()` used by the alert manager behaves on a
table whose key column is unique): the first entry with the key. -/
def pyGet {κ α : Type} [DecidableEq κ] (m : List (κ × α)) (k : κ) : Option α :=
  (m.find? (fun p => decide (p.1 = k))).map (fun p => p.2)

/-- Python dict store `d[k] = v`: replaces the value of an existing key in
place, otherwise appends a new entry. -/
def pySet {κ α : Type} [DecidableEq κ] (m : List (κ × α)) (k : κ) (v : α) :
    List (κ × α) :=
  if (pyGet m k).isSome then
    m.map (fun p => if p.1 = k then (k, v) else p)
  else m ++ [(k, v)]

/-- Python dict delete `del d[k]`. -/
def pyDel {κ α : Type} [DecidableEq κ] (m : List (κ × α)) (k : κ) :
    List (κ × α) :=
  m.filter (fun p => ! decide (p.1 = k))

/-- Python set `s.add(x)` on a set modelled as its element list. -/
def pySetAdd (s : List String) (x : String) : List String :=
  if x ∈ s then s else s ++ [x]

/-- Python set `s.discard(x)`. -/
def pySetDiscard (s : List String) (x : String) : List String :=
  s.filter (fun y => ! decide (y = x))

/-! ## Alert manager: throttle state (alert_models.AlertThrottle) -/

/-- One AlertThrottle row: when an alert for this throttle key was last
sent and how many have been sent. -/
structure ThrottleState where
  last_alert_time : Int
  alert_count : Nat
  deriving Repr, DecidableEq

/-- The AlertThrottle table, keyed by throttle_key (unique column). -/
abbrev ThrottleMap := List (String × ThrottleState)

/-- AlertManager._should_send_alert: a fresh key is allowed and creates a
row with count 1 and last_alert_time = now; an existing key is allowed iff
now - last_alert_time ≥ min_seconds, in which case the row is updated
(last_alert_time := now, count incremented); a denied call commits
nothing. Returns (allowed, the table after the call). -/
def should_send_alert (throttles : ThrottleMap) (throttle_key : String)
    (now : Int) (min_seconds : Int) : Bool × ThrottleMap :=
  match pyGet throttles throttle_key with
  | none => (true, pySet throttles throttle_key ⟨now, 1⟩)
  | some throttle =>
    if min_seconds ≤ now - throttle.last_alert_time then
      (true, pySet throttles throttle_key ⟨now, throttle.alert_count + 1⟩)
    else
      (false, throttles)

/-- The default of _should_send_alert's min_seconds parameter. -/
def default_min_seconds : Int := 300

/-- The min_seconds trigger_recording_alert passes ("1 minute throttle"). -/
def recording_min_seconds : Int := 60

/-! ## Alert manager: configuration and quiet hours -/

/-- The fields of alert_models.AlertConfiguration the trigger paths read.
quiet_hours_start/end hold the minutes-past-midnight value of the stored
"HH:MM" string, or none when strptime would fail on it. -/
structure AlertConfiguration where
  motion_alerts_enabled : Bool
  recording_alerts_enabled : Bool
  min_seconds_between_alerts : Int
  quiet_hours_enabled : Bool
  quiet_hours_start : Option Nat
  quiet_hours_end : Option Nat
  deriving Repr, DecidableEq

/-- AlertManager._is_quiet_hours: false when disabled or when either bound
fails to parse; otherwise, with wrap-around when start > end, true iff
now ≥ start or now ≤ end, and in the non-wrapping case true iff
start ≤ now ≤ end (both comparisons inclusive, as the source's `<=` on
datetime.time values is). -/
def is_quiet_hours (config : AlertConfiguration) (now : Nat) : Bool :=
  if ¬ config.quiet_hours_enabled then false
  else
    match config.quiet_hours_start, config.quiet_hours_end with
    | some start_time, some end_time =>
      if end_time < start_time then
        decide (start_time ≤ now) || decide (now ≤ end_time)
      else
        decide (start_time ≤ now) && decide (now ≤ end_time)
    | _, _ => false

/-- The quiet-hours window as the specification words it: the half-open
interval [start, end) of local time of day, with wrap-around when
start > end. Stated only for comparison against is_quiet_hours, which is
what the source implements. -/
def quiet_hours_spec_window (config : AlertConfiguration) (now : Nat) : Bool :=
  if ¬ config.quiet_hours_enabled then false
  else
    match config.quiet_hours_start, config.quiet_hours_end with
    | some start_time, some end_time =>
      if end_time < start_time then
        decide (start_time ≤ now) || decide (now < end_time)
      else
        decide (start_time ≤ now) && decide (now < end_time)
    | _, _ => false

/-! ## Alert manager: trigger paths -/

/-- One dispatched notification batch: the `_send_notifications` call a
config reaches after passing the throttle gate and the quiet-hours check.
Payload details (channels, recipients) do not matter to the claims. -/
structure AlertSend where
  event_type : String
  camera_id : String
  deriving Repr, DecidableEq

/-- AlertManager.trigger_motion_alert: for each configuration with
motion_alerts_enabled (the db query's filter), first consult the throttle
gate for key "motion_<camera>" — which commits its row creation or update
— then skip the send if within quiet hours, else dispatch. Returns the
throttle table after the call and the dispatched sends. -/
def trigger_motion_alert (throttles : ThrottleMap)
    (configs : List AlertConfiguration) (camera_id : String)
    (now : Int) (now_tod : Nat) : ThrottleMap × List AlertSend :=
  (configs.filter (fun c => c.motion_alerts_enabled)).foldl
    (fun acc config =>
      let throttle_key := "motion_" ++ camera_id
      let r := should_send_alert acc.1 throttle_key now
        config.min_seconds_between_alerts
      if ¬ r.1 then (r.2, acc.2)
      else if is_quiet_hours config now_tod then (r.2, acc.2)
      else (r.2, acc.2 ++ [⟨"motion", camera_id⟩]))
    (throttles, [])

/-- AlertManager.trigger_recording_alert: event type recording_started or
recording_stopped by the flag; for each configuration with
recording_alerts_enabled, throttle key "<event_type>_<camera>" with a
60-second minimum, then the quiet-hours check, then dispatch. -/
def trigger_recording_alert (throttles : ThrottleMap)
    (configs : List AlertConfiguration) (camera_id : String)
    (recording_started : Bool) (now : Int) (now_tod : Nat) :
    ThrottleMap × List AlertSend :=
  let event_type :=
    if recording_started then "recording_started" else "recording_stopped"
  (configs.filter (fun c => c.recording_alerts_enabled)).foldl
    (fun acc config =>
      let throttle_key := event_type ++ "_" ++ camera_id
      let r := should_send_alert acc.1 throttle_key now recording_min_seconds
      if ¬ r.1 then (r.2, acc.2)
      else if is_quiet_hours config now_tod then (r.2, acc.2)
      else (r.2, acc.2 ++ [⟨event_type, camera_id⟩]))
    (throttles, [])

/-! ## Frames and the motion detector -/

/-- A drawing operation applied to a frame (cv2.putText, cv2.circle,
cv2.rectangle are recorded rather than rasterised). -/
inductive Overlay
  | text (s : String) (x y : Int)
  | circle (x y radius : Int) (filled : Bool)
  | rect (x1 y1 x2 y2 : Int)
  deriving Repr, DecidableEq

/-- A video frame: an opaque pixel buffer identity plus the overlays drawn
on it. -/
structure Frame where
  buffer : Nat
  overlays : List Overlay
  deriving Repr, DecidableEq

/-- A contour as cv2.findContours hands it back: its cv2.contourArea and
cv2.boundingRect. The OpenCV pipeline producing the contour list (blur,
MOG2 background subtraction, zone mask, morphology) is the external input
to detection. -/
structure Contour where
  area : Int
  x : Int
  y : Int
  w : Int
  h : Int
  deriving Repr, DecidableEq

/-- One surviving motion area of MotionDetector.detect: the dict
with x, y, w, h and area it appends. -/
structure MotionArea where
  x : Int
  y : Int
  w : Int
  h : Int
  area : Int
  deriving Repr, DecidableEq

/-- MotionDetector.SENSITIVITY_MAP: sensitivity 1-10 to the minimum
contour area (dict lookup with the legacy min_contour_area as default). -/
def SENSITIVITY_MAP (sensitivity : Nat) (min_contour_area : Int) : Int :=
  match sensitivity with
  | 1 => 5000
  | 2 => 3000
  | 3 => 1500
  | 4 => 800
  | 5 => 500
  | 6 => 300
  | 7 => 200
  | 8 => 150
  | 9 => 120
  | 10 => 100
  | _ => min_contour_area

/-- MotionDetector.detect (motion_detector.py lines 173-242) given the
contours the OpenCV stages produced: drop every contour below
min_contour_area; each survivor sets the motion flag, appends its motion
area and draws a bounding box and an area label on the frame. Returns the
source's triple (annotated frame, motion flag, motion areas). -/
def MotionDetector.detect (min_contour_area : Int) (frame : Frame)
    (contours : List Contour) : Frame × Bool × List MotionArea :=
  contours.foldl
    (fun acc c =>
      if c.area < min_contour_area then acc
      else
        ({ acc.1 with overlays := acc.1.overlays ++
            [Overlay.rect c.x c.y (c.x + c.w) (c.y + c.h),
             Overlay.text "area" c.x (c.y - 5)] },
         true,
         acc.2.2 ++ [⟨c.x, c.y, c.w, c.h, c.area⟩]))
    (frame, false, [])

/-! ## Recorder -/

/-- Recorder state (recorder.py): has_writer models `self.writer is not
None`; detected_faces keeps the name of each attached detection, which is
all the metadata aggregation reads. -/
structure RecorderState where
  is_recording : Bool
  has_writer : Bool
  filename : String
  frame_count : Nat
  detected_faces : List String
  recording_start_time : Option Int
  deriving Repr, DecidableEq

/-- A fresh Recorder(). -/
def Recorder.init : RecorderState :=
  { is_recording := false, has_writer := false, filename := "",
    frame_count := 0, detected_faces := [], recording_start_time := none }

/-- Recorder.start (lines 37-62): "Already recording." is a plain return;
otherwise pick the timestamped filename, construct the cv2.VideoWriter
(whether it opens is the external outcome writer_opens), and only when it
opened mark recording and reset the per-session counters. -/
def Recorder.start (r : RecorderState) (now : Int) (fname : String)
    (writer_opens : Bool) : RecorderState :=
  if r.is_recording then r
  else
    let r1 := { r with filename := fname, has_writer := true }
    if ¬ writer_opens then r1
    else
      { r1 with is_recording := true, recording_start_time := some now,
                frame_count := 0, detected_faces := [] }

/-- Recorder.write: appends a frame (counted) only while recording with a
writer. -/
def Recorder.write (r : RecorderState) : RecorderState :=
  if r.is_recording && r.has_writer then
    { r with frame_count := r.frame_count + 1 }
  else r

/-- Recorder.add_face_detection: tag and append a detection while
recording. -/
def Recorder.add_face_detection (r : RecorderState) (name : String) :
    RecorderState :=
  if r.is_recording then
    { r with detected_faces := r.detected_faces ++ [name] }
  else r

/-- The metadata summary _save_metadata writes: duration, frame count and
the aggregation of the attached detections (unique names, known vs
unknown counts). -/
structure RecordingSummary where
  duration : Int
  frame_count : Nat
  unique_people : List String
  known_faces : Nat
  unknown_faces : Nat
  deriving Repr, DecidableEq

/-- Recorder.stop (lines 84-114): a no-op when idle; otherwise clear the
recording flag, and if a writer exists release it, compute the duration
and save the metadata summary; finally reset the per-session fields. -/
def Recorder.stop (r : RecorderState) (now : Int) :
    RecorderState × Option RecordingSummary :=
  if ¬ r.is_recording then (r, none)
  else
    let summary? : Option RecordingSummary :=
      if r.has_writer then
        some { duration := now - r.recording_start_time.getD 0,
               frame_count := r.frame_count,
               unique_people := r.detected_faces.dedup,
               known_faces :=
                 (r.detected_faces.filter (fun n => ! decide (n = "Unknown"))).length,
               unknown_faces :=
                 (r.detected_faces.filter (fun n => decide (n = "Unknown"))).length }
      else none
    ({ is_recording := false, has_writer := false, filename := "",
       frame_count := 0, detected_faces := [], recording_start_time := none },
     summary?)

/-! ## Camera loop (camera_manager.py, MockCamera) -/

/-- An asyncio task the camera loop creates with asyncio.create_task: the
AlertManager trigger coroutine it schedules. The loop's source only ever
creates motion triggers; the recording constructor names the
trigger_recording_alert coroutine no camera code schedules. -/
inductive AlertTask
  | motion (camera_id : String) (ts : Int)
  | recording (camera_id : String) (started : Bool)
  deriving Repr, DecidableEq

/-- MockCamera state: the Camera base fields the loop reads and writes.
camera_id models `getattr(self, 'camera_id', 'mock_cam')`. -/
structure CamState where
  is_running : Bool
  camera_id : Option String
  min_contour_area : Int
  motion_detected : Bool
  recorder : RecorderState
  last_motion_time : Int
  post_motion_cooldown : Int
  face_detection_enabled : Bool
  last_faces_detected : List String
  width : Int
  height : Int
  deriving Repr, DecidableEq

/-- A fresh MockCamera(): 640x480, a 5 second post-motion cooldown, the
default sensitivity-5 motion detector (min contour area 500), face
detection on, recorder idle. -/
def MockCamera.init : CamState :=
  { is_running := false, camera_id := none, min_contour_area := 500,
    motion_detected := false, recorder := Recorder.init,
    last_motion_time := 0, post_motion_cooldown := 5,
    face_detection_enabled := true, last_faces_detected := [],
    width := 640, height := 480 }

/-- The synthetic frame MockCamera.get_frame paints before detection
(lines 76-88): timestamp text and a moving circle whose position comes
from floating-point cos/sin — opaque pixels, modelled as a buffer stamped
with the time. -/
def mock_frame (now : Int) : Frame :=
  { buffer := now.toNat, overlays := [] }

/-- One exception value: Python's ValueError. -/
inductive PyErr
  | valueError (msg : String)
  deriving Repr, DecidableEq

/-- The returned tuple of MotionDetector.detect as the heterogeneous value
sequence Python sees when unpacking it. -/
inductive DetectVal
  | pframe (f : Frame)
  | flag (b : Bool)
  | areas (l : List MotionArea)
  deriving Repr, DecidableEq

/-- detect's triple as a Python tuple. -/
def detect_tuple (r : Frame × Bool × List MotionArea) : List DetectVal :=
  [DetectVal.pframe r.1, DetectVal.flag r.2.1, DetectVal.areas r.2.2]

/-- Python's two-target tuple unpacking `a, b = t` as get_frame uses it on
detect's result (line 91), the targets then holding the processed frame
and the motion flag: a two-element tuple unpacks, any longer tuple raises
`ValueError: too many values to unpack (expected 2)`, any shorter one
raises `not enough values to unpack`. (A two-element tuple of other kinds
never arises from detect_tuple.) -/
def py_unpack2 (vals : List DetectVal) : Except PyErr (Frame × Bool) :=
  match vals with
  | [DetectVal.pframe f, DetectVal.flag b] => Except.ok (f, b)
  | [_, _] => Except.error (PyErr.valueError "unpacked values have unexpected kinds")
  | _ :: _ :: _ :: _ =>
    Except.error (PyErr.valueError "too many values to unpack (expected 2)")
  | _ => Except.error (PyErr.valueError "not enough values to unpack")

/-- Lines 112-126 of MockCamera.get_frame, the recording logic: on motion
refresh last_motion_time and start the recorder when idle (the writer
outcome and filename are external); while recording, draw the red
indicator dot on the streamed frame, write the clean frame, and stop once
motion has been absent for longer than post_motion_cooldown seconds. -/
def recording_logic (cam : CamState) (motion_detected : Bool) (now : Int)
    (processed_frame : Frame) (fname : String) (writer_opens : Bool) :
    CamState × Frame :=
  let cam1 :=
    if motion_detected then
      let camM := { cam with last_motion_time := now }
      if ¬ camM.recorder.is_recording then
        { camM with recorder := Recorder.start camM.recorder now fname writer_opens }
      else camM
    else cam
  if cam1.recorder.is_recording then
    let pf := { processed_frame with overlays := processed_frame.overlays ++
        [Overlay.circle (cam1.width - 30) 30 10 true] }
    let cam2 := { cam1 with recorder := Recorder.write cam1.recorder }
    if ¬ motion_detected &&
        decide (cam2.post_motion_cooldown < now - cam2.last_motion_time) then
      ({ cam2 with recorder := (Recorder.stop cam2.recorder now).1 }, pf)
    else (cam2, pf)
  else (cam1, processed_frame)

/-- Lines 93-126 of MockCamera.get_frame, after the detect unpack: create
the motion-alert task when motion was detected, run the face detector on
the processed frame when enabled (face_detection.py's process_frame is the
external function process_frame), then the recording logic. Returns the
(streamed frame, motion flag) pair, the camera state and the alert tasks
the call created. -/
def get_frame_rest (cam : CamState) (processed_frame : Frame)
    (motion_detected : Bool) (now : Int)
    (process_frame : Frame → Bool → Frame × List String)
    (fname : String) (writer_opens : Bool) :
    (Frame × Bool) × CamState × List AlertTask :=
  let tasks :=
    if motion_detected then
      [AlertTask.motion (cam.camera_id.getD "mock_cam") now]
    else []
  let (pf1, cam1) :=
    if cam.face_detection_enabled then
      let fr := process_frame processed_frame motion_detected
      (fr.1, { cam with last_faces_detected := fr.2 })
    else (processed_frame, cam)
  let (cam2, pf2) := recording_logic cam1 motion_detected now pf1 fname writer_opens
  ((pf2, motion_detected), cam2, tasks)

/-- MockCamera.get_frame (lines 72-126). Not running: return (None,
False). Otherwise paint the mock frame, run motion detection and unpack
its result into the two targets `processed_frame, self.motion_detected`;
detect returns a triple, so the unpack raises and get_frame propagates
the ValueError (no enclosing try). The remainder of the body — reachable
only were the unpack to succeed — is get_frame_rest. -/
def MockCamera.get_frame (cam : CamState) (now : Int)
    (contours : List Contour)
    (process_frame : Frame → Bool → Frame × List String)
    (fname : String) (writer_opens : Bool) :
    Except PyErr (Option Frame × Bool) × CamState × List AlertTask :=
  if ¬ cam.is_running then (Except.ok (none, false), cam, [])
  else
    match py_unpack2 (detect_tuple
        (MotionDetector.detect cam.min_contour_area (mock_frame now) contours)) with
    | Except.error e => (Except.error e, cam, [])
    | Except.ok (pf, md) =>
      let cam1 := { cam with motion_detected := md }
      let r := get_frame_rest cam1 pf md now process_frame fname writer_opens
      (Except.ok (some r.1.1, r.1.2), r.2.1, r.2.2)

/-! ## Face recognition manager (face_recognition.py)

Face embeddings are opaque 128-vectors of the external dlib model; they
are modelled as opaque identifiers (Int), and the external
face_recognition.face_distance is a distance function passed in. -/

/-- The minimum of the nonempty list d :: ds (np.min). -/
def list_min (d : ℚ) (ds : List ℚ) : ℚ :=
  ds.foldl min d

/-- np.argmin on a distance list: the index of the first minimal
element (np.argmin returns 0 on an empty input's shape edge; the manager
guards emptiness before calling it). -/
def np_argmin : List ℚ → Nat
  | [] => 0
  | [_] => 0
  | d :: e :: ds =>
    if d ≤ list_min e ds then 0 else np_argmin (e :: ds) + 1

/-- Lines 222-243 of recognize_faces_in_frame, per detected face: the
compare_faces match list (each gallery distance ≤ tolerance), the
face_distance list, np.argmin for the best match index; name and
confidence stay "Unknown" and 0.0 unless matches[best_match_index]
holds, in which case the best entry's name and 1 - its distance are
taken. -/
def match_known_faces (known_face_encodings : List Int)
    (known_face_names : List String) (tolerance : ℚ)
    (dist : Int → Int → ℚ) (face_encoding : Int) : String × ℚ :=
  let face_distances := known_face_encodings.map (fun e => dist e face_encoding)
  let match_list := face_distances.map (fun d => decide (d ≤ tolerance))
  if face_distances.length ≠ 0 then
    let best_match_index := np_argmin face_distances
    if match_list.getD best_match_index false then
      (known_face_names.getD best_match_index "Unknown",
       1 - face_distances.getD best_match_index 0)
    else ("Unknown", 0)
  else ("Unknown", 0)

/-- A face location as face_recognition.face_locations yields it. -/
structure FaceLocation where
  top : Int
  right : Int
  bottom : Int
  left : Int
  deriving Repr, DecidableEq

/-- One entry of recognize_faces_in_frame's detected_faces list. -/
structure FaceDetection where
  name : String
  confidence : ℚ
  location : FaceLocation
  timestamp : Int
  deriving Repr, DecidableEq

/-- FaceRecognitionManager state: the gallery, tolerance, detector choice
and the recognition statistics the claims read. -/
structure FRState where
  known_face_encodings : List Int
  known_face_names : List String
  recognition_threshold : ℚ
  detection_method : String
  recognitions_today : Nat
  last_recognition : Option Int
  deriving Repr, DecidableEq

/-- FaceRecognitionManager.recognize_faces_in_frame (lines 184-275). An
empty gallery returns the frame and the empty list at once (line 194-195),
before the colour conversion, resize and detector run. Otherwise the
external detector (face_locations + face_encodings on the quarter-scale
frame) yields located encodings; each is scaled back by 4, matched against
the gallery, recorded and drawn; finally recognitions_today and
last_recognition are updated only when some face was detected. -/
def recognize_faces_in_frame (st : FRState) (frame : Frame)
    (detector : Frame → String → List (FaceLocation × Int))
    (dist : Int → Int → ℚ) (now : Int) :
    Frame × List FaceDetection × FRState :=
  if st.known_face_encodings.length = 0 then (frame, [], st)
  else
    let faces := detector frame st.detection_method
    let step := faces.foldl
      (fun (acc : Frame × List FaceDetection) lf =>
        let loc : FaceLocation :=
          ⟨lf.1.top * 4, lf.1.right * 4, lf.1.bottom * 4, lf.1.left * 4⟩
        let nc := match_known_faces st.known_face_encodings
          st.known_face_names st.recognition_threshold dist lf.2
        let det : FaceDetection := ⟨nc.1, nc.2, loc, now⟩
        let f1 := { acc.1 with overlays := acc.1.overlays ++
            [Overlay.rect loc.left loc.top loc.right loc.bottom,
             Overlay.rect loc.left (loc.bottom - 35) loc.right loc.bottom,
             Overlay.text nc.1 (loc.left + 6) (loc.bottom - 6)] }
        (f1, acc.2 ++ [det]))
      (frame, [])
    let detected_faces := step.2
    let st1 :=
      if detected_faces.length ≠ 0 then
        { st with
            recognitions_today := st.recognitions_today + detected_faces.length,
            last_recognition := some now }
      else st
    (step.1, detected_faces, st1)

/-! ## Training (face_recognition.py lines 70-158) -/

/-- One face found in a training image by the external
face_recognition.face_encodings call: its bounding-box area (for the
comparison with the specification's largest-by-area policy) and its
embedding, listed in the order the detector returns. -/
structure DetectedFace where
  area : Int
  encoding : Int
  deriving Repr, DecidableEq

/-- One file of a person's folder: its name, whether loading it raises
(the caught exception path), and the faces found in it. -/
structure TrainImage where
  filename : String
  load_fails : Bool
  faces : List DetectedFace
  deriving Repr, DecidableEq

/-- One entry of os.listdir(faces_folder): a name, whether it is a
directory, its image files. -/
structure FolderEntry where
  name : String
  is_dir : Bool
  images : List TrainImage
  deriving Repr, DecidableEq

/-- str.lower() on one character: ASCII lowercasing (the extension
comparison only involves ASCII). -/
def ascii_lower (c : Char) : Char :=
  if 65 ≤ c.toNat ∧ c.toNat ≤ 90 then Char.ofNat (c.toNat + 32) else c

/-- The `image_file.lower().endswith(('.jpg', '.jpeg', '.png'))` filter,
on the filename's characters. -/
def is_image_file (filename : String) : Bool :=
  let n := filename.data.map ascii_lower
  ".jpg".data.isSuffixOf n || ".jpeg".data.isSuffixOf n ||
    ".png".data.isSuffixOf n

/-- Lines 101-125: the (encoding, label) pairs one person's folder
contributes. Non-image filenames are skipped, a load error is caught and
skipped, an image with no faces is skipped, and an image with faces
contributes face_encodings[0] — the first face the detector returned —
labeled with the folder name. -/
def train_person_images (person_name : String) (images : List TrainImage) :
    List (Int × String) :=
  images.foldl
    (fun acc img =>
      if ¬ is_image_file img.filename then acc
      else if img.load_fails then acc
      else
        match img.faces with
        | [] => acc
        | f :: _ => acc ++ [(f.encoding, person_name)])
    []

/-- The per-image selection as the specification words it: the embedding
of the largest face by area. Stated only for comparison with
train_person_images, which takes the first face the detector returned. -/
def spec_pick_largest (faces : List DetectedFace) : Option Int :=
  match faces with
  | [] => none
  | f :: fs =>
    some ((fs.foldl (fun best g => if best.area < g.area then g else best) f).encoding)

/-- FaceRecognitionManager.train_face_recognition (lines 70-143): reset
the gallery, walk the folder entries skipping non-directories, collect
each person's contributions, count people and encodings. Returns
(encodings, names, people_count). -/
def train_face_recognition (folders : List FolderEntry) :
    List Int × List String × Nat :=
  let dirs := folders.filter (fun p => p.is_dir)
  let pairs := dirs.foldl (fun acc p => acc ++ train_person_images p.name p.images) []
  (pairs.map (fun q => q.1), pairs.map (fun q => q.2), dirs.length)

/-- The record save_encodings pickles (lines 145-158): encodings, names,
threshold, method. -/
structure SavedEncodings where
  encodings : List Int
  names : List String
  threshold : ℚ
  method : String
  deriving Repr, DecidableEq

/-- FaceRecognitionManager.save_encodings on a manager state. -/
def save_encodings (st : FRState) : SavedEncodings :=
  ⟨st.known_face_encodings, st.known_face_names, st.recognition_threshold,
   st.detection_method⟩

/-- Training at the manager level: rebuild the gallery from the folders,
then save_encodings persists it (line 128). -/
def train_and_save (st : FRState) (folders : List FolderEntry) :
    FRState × SavedEncodings :=
  let r := train_face_recognition folders
  let st1 := { st with known_face_encodings := r.1, known_face_names := r.2.1 }
  (st1, save_encodings st1)

/-! ## WebSocket connection manager (websocket_manager.py) -/

/-- The metadata of one WebSocketConnection the indices read. -/
structure WSConn where
  user_id : Int
  username : String
  deriving Repr, DecidableEq

/-- WebSocketConnectionManager state: the connection-id index, the
per-user index of connection-id sets, and the cap. Both dicts and the
sets are in insertion order. -/
structure WSState where
  active_connections : List (String × WSConn)
  user_connections : List (Int × List String)
  max_connections_per_user : Nat
  deriving Repr, DecidableEq

/-- A fresh WebSocketConnectionManager(cap). -/
def WSManager.init (cap : Nat) : WSState :=
  { active_connections := [], user_connections := [],
    max_connections_per_user := cap }

/-- The user's current connection count,
`len(self.user_connections.get(user_id, set()))`. -/
def user_connection_count (st : WSState) (user_id : Int) : Nat :=
  ((pyGet st.user_connections user_id).getD []).length

/-- WebSocketConnectionManager.connect (lines 59-104): reject with False
before any mutation when the user already holds max_connections_per_user
connections; otherwise accept, register the connection under its id and
add the id to the user's set (creating the set first when absent). -/
def WSManager.connect (st : WSState) (user_id : Int) (username : String)
    (connection_id : String) : Bool × WSState :=
  if st.max_connections_per_user ≤ user_connection_count st user_id then
    (false, st)
  else
    let conn : WSConn := ⟨user_id, username⟩
    let active := pySet st.active_connections connection_id conn
    let user_set := (pyGet st.user_connections user_id).getD []
    let users := pySet st.user_connections user_id (pySetAdd user_set connection_id)
    (true, { st with active_connections := active, user_connections := users })

/-- WebSocketConnectionManager.disconnect (lines 106-129): a no-op for an
unknown id; otherwise remove the connection from the id index, discard
the id from its user's set, and drop the user's entry once the set is
empty. -/
def WSManager.disconnect (st : WSState) (connection_id : String) : WSState :=
  match pyGet st.active_connections connection_id with
  | none => st
  | some conn =>
    let active := pyDel st.active_connections connection_id
    let users :=
      match pyGet st.user_connections conn.user_id with
      | none => st.user_connections
      | some s =>
        let s1 := pySetDiscard s connection_id
        if s1.length = 0 then pyDel st.user_connections conn.user_id
        else pySet st.user_connections conn.user_id s1
    { st with active_connections := active, user_connections := users }

/-- The states a WebSocketConnectionManager can reach: a fresh manager,
followed by any interleaving of connect and disconnect calls. -/
inductive WSReachable : WSState → Prop
  | init (cap : Nat) : WSReachable (WSManager.init cap)
  | connect (st : WSState) (user_id : Int) (username : String)
      (connection_id : String) :
      WSReachable st →
      WSReachable (WSManager.connect st user_id username connection_id).2
  | disconnect (st : WSState) (connection_id : String) :
      WSReachable st → WSReachable (WSManager.disconnect st connection_id)

/-! ## Lemmas on the Python dict model -/

theorem pyGet_cons {κ α : Type} [DecidableEq κ] (p : κ × α)
    (m : List (κ × α)) (k : κ) :
    pyGet (p :: m) k = if p.1 = k then some p.2 else pyGet m k := by
  by_cases h : p.1 = k
  · simp [pyGet, List.find?_cons_of_pos, h]
  · simp [pyGet, List.find?_cons_of_neg, h]

theorem pyGet_pySet_self {κ α : Type} [DecidableEq κ] (m : List (κ × α))
    (k : κ) (v : α) : pyGet (pySet m k v) k = some v := by
  induction m with
  | nil => simp [pyGet, pySet]
  | cons p m ih =>
    by_cases h : p.1 = k
    · have hs : (pyGet (p :: m) k).isSome := by simp [pyGet_cons, h]
      simp only [pySet, if_pos hs, List.map_cons, if_pos h]
      simp [pyGet_cons]
    · have hrec : pyGet (p :: m) k = pyGet m k := by simp [pyGet_cons, h]
      by_cases hs : (pyGet m k).isSome
      · have hs' : (pyGet (p :: m) k).isSome := by rw [hrec]; exact hs
        have hm : pySet m k v = m.map (fun q => if q.1 = k then (k, v) else q) := by
          simp [pySet, hs]
        simp only [pySet, if_pos hs', List.map_cons, if_neg h]
        rw [pyGet_cons, if_neg h, ← hm, ih]
      · have hs' : ¬ (pyGet (p :: m) k).isSome := by rw [hrec]; exact hs
        have hsplit : pySet (p :: m) k v = p :: pySet m k v := by
          simp [pySet, hs', hs]
        rw [hsplit, pyGet_cons, if_neg h, ih]

theorem pyGet_map_set_ne {κ α : Type} [DecidableEq κ] (m : List (κ × α))
    (k k' : κ) (v : α) (hne : k' ≠ k) :
    pyGet (m.map (fun q => if q.1 = k then (k, v) else q)) k' = pyGet m k' := by
  induction m with
  | nil => rfl
  | cons p m ih =>
    by_cases hp : p.1 = k
    · rw [List.map_cons, if_pos hp, pyGet_cons, pyGet_cons]
      have h1 : ¬ ((k, v).1 = k') := Ne.symm hne
      rw [if_neg h1, if_neg (fun hx => h1 (hp ▸ hx)), ih]
    · rw [List.map_cons, if_neg hp, pyGet_cons, pyGet_cons]
      by_cases hq : p.1 = k'
      · rw [if_pos hq, if_pos hq]
      · rw [if_neg hq, if_neg hq, ih]

theorem pyGet_append_single_ne {κ α : Type} [DecidableEq κ]
    (m : List (κ × α)) (k k' : κ) (v : α) (hne : k' ≠ k) :
    pyGet (m ++ [(k, v)]) k' = pyGet m k' := by
  induction m with
  | nil =>
    have h1 : ¬ ((k, v).1 = k') := Ne.symm hne
    simp [pyGet_cons, h1, pyGet]
  | cons p m ih =>
    rw [List.cons_append, pyGet_cons, pyGet_cons]
    by_cases hq : p.1 = k'
    · rw [if_pos hq, if_pos hq]
    · rw [if_neg hq, if_neg hq, ih]

theorem pyGet_pySet_ne {κ α : Type} [DecidableEq κ] (m : List (κ × α))
    (k k' : κ) (v : α) (hne : k' ≠ k) :
    pyGet (pySet m k v) k' = pyGet m k' := by
  unfold pySet
  by_cases hs : (pyGet m k).isSome
  · rw [if_pos hs]
    exact pyGet_map_set_ne m k k' v hne
  · rw [if_neg hs]
    exact pyGet_append_single_ne m k k' v hne

theorem pyDel_cons {κ α : Type} [DecidableEq κ] (p : κ × α)
    (m : List (κ × α)) (k : κ) :
    pyDel (p :: m) k = if p.1 = k then pyDel m k else p :: pyDel m k := by
  by_cases h : p.1 = k
  · simp [pyDel, List.filter_cons, h]
  · simp [pyDel, List.filter_cons, h]

theorem pyGet_pyDel_self {κ α : Type} [DecidableEq κ] (m : List (κ × α))
    (k : κ) : pyGet (pyDel m k) k = none := by
  induction m with
  | nil => rfl
  | cons p m ih =>
    rw [pyDel_cons]
    by_cases h : p.1 = k
    · rw [if_pos h]; exact ih
    · rw [if_neg h, pyGet_cons, if_neg h]; exact ih

theorem pyGet_pyDel_ne {κ α : Type} [DecidableEq κ] (m : List (κ × α))
    (k k' : κ) (hne : k' ≠ k) : pyGet (pyDel m k) k' = pyGet m k' := by
  induction m with
  | nil => rfl
  | cons p m ih =>
    rw [pyDel_cons]
    by_cases h : p.1 = k
    · have hpk : ¬ p.1 = k' := fun hx => hne (hx.symm.trans h)
      rw [if_pos h, ih, pyGet_cons, if_neg hpk]
    · rw [if_neg h, pyGet_cons, pyGet_cons]
      by_cases hq : p.1 = k'
      · rw [if_pos hq, if_pos hq]
      · rw [if_neg hq, if_neg hq, ih]

theorem pySetAdd_length (s : List String) (x : String) :
    (pySetAdd s x).length ≤ s.length + 1 := by
  unfold pySetAdd
  split
  · exact Nat.le_succ _
  · simp

theorem pySetDiscard_length (s : List String) (x : String) :
    (pySetDiscard s x).length ≤ s.length :=
  List.length_filter_le _ s

theorem mem_pySetDiscard (s : List String) (x y : String) :
    y ∈ pySetDiscard s x ↔ y ∈ s ∧ y ≠ x := by
  simp [pySetDiscard, List.mem_filter]

theorem pySetDiscard_eq_nil_subset (s : List String) (x : String)
    (h : (pySetDiscard s x).length = 0) :
    ∀ y ∈ s, y = x := by
  intro y hy
  by_contra hne
  have : y ∈ pySetDiscard s x := (mem_pySetDiscard s x y).mpr ⟨hy, hne⟩
  have := List.length_pos_of_mem this
  omega

/-! ## Lemmas on np_argmin -/

theorem list_min_min (a b : ℚ) (ds : List ℚ) :
    list_min (min a b) ds = min a (list_min b ds) := by
  induction ds generalizing a b with
  | nil => rfl
  | cons c ds ih =>
    show list_min (min (min a b) c) ds = min a (list_min (min b c) ds)
    rw [min_assoc, ih]

theorem list_min_cons (d e : ℚ) (ds : List ℚ) :
    list_min d (e :: ds) = min d (list_min e ds) := by
  show list_min (min d e) ds = min d (list_min e ds)
  exact list_min_min d e ds

theorem list_min_le_self (d : ℚ) (ds : List ℚ) : list_min d ds ≤ d := by
  induction ds generalizing d with
  | nil => exact le_refl d
  | cons e ds ih =>
    rw [list_min_cons]
    exact min_le_left d _

theorem list_min_le_mem (d x : ℚ) (ds : List ℚ) (hx : x ∈ ds) :
    list_min d ds ≤ x := by
  induction ds generalizing d with
  | nil => cases hx
  | cons e ds ih =>
    rw [list_min_cons]
    rcases List.mem_cons.mp hx with h | h
    · calc min d (list_min e ds) ≤ list_min e ds := min_le_right _ _
        _ ≤ e := list_min_le_self e ds
        _ = x := (h ▸ rfl)
    · exact le_trans (min_le_right _ _) (ih e h)

theorem list_min_le_getD (d : ℚ) (ds : List ℚ) (j : Nat)
    (hj : j < (d :: ds).length) : list_min d ds ≤ (d :: ds).getD j 0 := by
  cases j with
  | zero => exact list_min_le_self d ds
  | succ j =>
    have hj' : j < ds.length := by simpa using hj
    have hmem : ds.getD j 0 ∈ ds := by
      rw [List.getD_eq_getElem ds 0 hj']
      exact List.getElem_mem hj'
    simpa using list_min_le_mem d _ ds hmem

theorem np_argmin_lt (d : ℚ) (ds : List ℚ) :
    np_argmin (d :: ds) < (d :: ds).length := by
  induction ds generalizing d with
  | nil => simp [np_argmin]
  | cons e ds ih =>
    rw [show np_argmin (d :: e :: ds) =
        if d ≤ list_min e ds then 0 else np_argmin (e :: ds) + 1 from rfl]
    split
    · simp
    · have := ih e
      simpa [Nat.succ_lt_succ_iff] using this

theorem np_argmin_getD (d : ℚ) (ds : List ℚ) :
    (d :: ds).getD (np_argmin (d :: ds)) 0 = list_min d ds := by
  induction ds generalizing d with
  | nil => rfl
  | cons e ds ih =>
    rw [show np_argmin (d :: e :: ds) =
        if d ≤ list_min e ds then 0 else np_argmin (e :: ds) + 1 from rfl]
    rw [list_min_cons]
    by_cases h : d ≤ list_min e ds
    · rw [if_pos h]
      simp [min_eq_left h]
    · rw [if_neg h]
      have hlt : list_min e ds < d := lt_of_not_le h
      rw [min_eq_right (le_of_lt hlt)]
      simpa using ih e

theorem np_argmin_is_min (d : ℚ) (ds : List ℚ) (j : Nat)
    (hj : j < (d :: ds).length) :
    (d :: ds).getD (np_argmin (d :: ds)) 0 ≤ (d :: ds).getD j 0 := by
  rw [np_argmin_getD]
  exact list_min_le_getD d ds j hj

/-! ## C4: the throttle allow-decision -/

/-- C4: for every throttle key, the first allow-decision call is allowed
and creates a ThrottleState with count 1 and last-sent = now; every
subsequent call is allowed iff now - last_sent ≥ min_interval (default
300 s, 60 s for recording events); an allowed call sets last-sent = now
and increments the count (other keys untouched), and a denied call
returns the table unmodified. -/
theorem C4_throttle_allow_decision (m : ThrottleMap) (k : String)
    (now min_s : Int) :
    (pyGet m k = none →
      (should_send_alert m k now min_s).1 = true ∧
      pyGet (should_send_alert m k now min_s).2 k = some ⟨now, 1⟩ ∧
      ∀ k', k' ≠ k →
        pyGet (should_send_alert m k now min_s).2 k' = pyGet m k') ∧
    (∀ t, pyGet m k = some t →
      ((should_send_alert m k now min_s).1 = true ↔
        min_s ≤ now - t.last_alert_time) ∧
      (min_s ≤ now - t.last_alert_time →
        pyGet (should_send_alert m k now min_s).2 k =
          some ⟨now, t.alert_count + 1⟩ ∧
        ∀ k', k' ≠ k →
          pyGet (should_send_alert m k now min_s).2 k' = pyGet m k') ∧
      (now - t.last_alert_time < min_s →
        should_send_alert m k now min_s = (false, m))) ∧
    default_min_seconds = 300 ∧ recording_min_seconds = 60 := by
  refine ⟨?_, ?_, rfl, rfl⟩
  · intro hnone
    rw [show should_send_alert m k now min_s =
        (true, pySet m k ⟨now, 1⟩) from by simp [should_send_alert, hnone]]
    exact ⟨rfl, pyGet_pySet_self m k _, fun k' hk => pyGet_pySet_ne m k k' _ hk⟩
  · intro t ht
    by_cases hle : min_s ≤ now - t.last_alert_time
    · rw [show should_send_alert m k now min_s =
          (true, pySet m k ⟨now, t.alert_count + 1⟩) from by
        simp [should_send_alert, ht, hle]]
      refine ⟨by simp [hle], ?_, ?_⟩
      · intro _
        exact ⟨pyGet_pySet_self m k _, fun k' hk => pyGet_pySet_ne m k k' _ hk⟩
      · intro hlt
        omega
    · rw [show should_send_alert m k now min_s = (false, m) from by
        simp [should_send_alert, ht, hle]]
      refine ⟨by simp [hle], ?_, fun _ => rfl⟩
      intro h
      exact absurd h hle

/-- C4 witness: a fresh key at time 1000 with the default interval is
allowed and creates the count-1 row. -/
theorem C4_throttle_allow_decision_witness :
    pyGet ([] : ThrottleMap) "motion_cam1" = none ∧
    (should_send_alert [] "motion_cam1" 1000 300).1 = true ∧
    pyGet (should_send_alert [] "motion_cam1" 1000 300).2 "motion_cam1" =
      some ⟨1000, 1⟩ := by
  have h := (C4_throttle_allow_decision [] "motion_cam1" 1000 300).1 rfl
  exact ⟨rfl, h.1, h.2.1⟩

/-! ## C3: quiet-hours suppression and throttle state -/

/-- C3 fails on the code: trigger_motion_alert consults (and updates) the
throttle gate before the quiet-hours check, so a call suppressed by quiet
hours has already created the throttle row. Concretely: quiet hours
22:00-07:00 active at 23:00, fresh key, the call dispatches nothing yet
the table gains the key with count 1. -/
theorem C3_quiet_suppressed_call_mutates_throttle :
    is_quiet_hours ⟨true, true, 300, true, some 1320, some 420⟩ 1380 = true ∧
    (should_send_alert [] "motion_cam1" 1000 300).1 = true ∧
    trigger_motion_alert [] [⟨true, true, 300, true, some 1320, some 420⟩]
      "cam1" 1000 1380 = ([("motion_cam1", ⟨1000, 1⟩)], []) ∧
    ([("motion_cam1", (⟨1000, 1⟩ : ThrottleState))] : ThrottleMap) ≠ [] := by
  refine ⟨by decide, by decide, ?_, by decide⟩
  decide

/-- C3 amended: a motion-alert call suppressed by quiet hours has already
passed the throttle gate, so the throttle table after the call is the
gate's updated table (row created or refreshed), not the pre-call one;
only nothing is dispatched. -/
theorem C3_amended_quiet_hours_after_throttle (m : ThrottleMap)
    (c : AlertConfiguration) (camera_id : String) (now : Int) (tod : Nat)
    (hm : c.motion_alerts_enabled = true)
    (ha : (should_send_alert m ("motion_" ++ camera_id) now
        c.min_seconds_between_alerts).1 = true)
    (hq : is_quiet_hours c tod = true) :
    trigger_motion_alert m [c] camera_id now tod =
      ((should_send_alert m ("motion_" ++ camera_id) now
          c.min_seconds_between_alerts).2, []) := by
  simp [trigger_motion_alert, hm, ha, hq]

/-- C3 witness: the amended statement at the concrete 23:00 call. -/
theorem C3_amended_witness :
    trigger_motion_alert [] [⟨true, true, 300, true, some 1320, some 420⟩]
      "cam1" 1000 1380 =
      ((should_send_alert [] "motion_cam1" 1000 300).2, []) :=
  C3_amended_quiet_hours_after_throttle []
    ⟨true, true, 300, true, some 1320, some 420⟩ "cam1" 1000 1380
    rfl (by decide) (by decide)

/-! ## C6: the quiet-hours window -/

/-- C6 fails on the code: the stored comparison is `now <= end`, so a
time exactly equal to the window's end is suppressed, where the claim's
half-open [start, end) window would not suppress it. Window 22:00-07:00
at exactly 07:00. -/
theorem C6_end_inclusive_counterexample :
    is_quiet_hours ⟨true, true, 300, true, some 1320, some 420⟩ 420 = true ∧
    quiet_hours_spec_window ⟨true, true, 300, true, some 1320, some 420⟩ 420 =
      false := by
  decide

/-- C6 amended: with quiet hours enabled and both bounds parsed, the
check suppresses exactly when the time of day lies in the closed
interval [start, end], wrapping around midnight when start > end; a time
exactly equal to end is suppressed. (For the 22:00-07:00 window, 23:00
and 03:00 are suppressed and 12:00 is not — the witness instantiates
these.) -/
theorem C6_amended_closed_window (c : AlertConfiguration) (s e now : Nat)
    (hen : c.quiet_hours_enabled = true)
    (hs : c.quiet_hours_start = some s)
    (he : c.quiet_hours_end = some e) :
    is_quiet_hours c now = true ↔
      (if e < s then s ≤ now ∨ now ≤ e else s ≤ now ∧ now ≤ e) := by
  simp only [is_quiet_hours, hen, hs, he]
  by_cases h : e < s
  · simp [h]
  · simp [h]

/-- C6 witness: the amended window at 23:00, 03:00 and 12:00 for the
22:00-07:00 configuration. -/
theorem C6_amended_witness :
    is_quiet_hours ⟨true, true, 300, true, some 1320, some 420⟩ 1380 = true ∧
    is_quiet_hours ⟨true, true, 300, true, some 1320, some 420⟩ 180 = true ∧
    is_quiet_hours ⟨true, true, 300, true, some 1320, some 420⟩ 720 = false :=
  ⟨(C6_amended_closed_window ⟨true, true, 300, true, some 1320, some 420⟩
      1320 420 1380 rfl rfl rfl).mpr (by decide),
   by decide, by decide⟩

/-! ## C1: the per-camera loop and detect's triple -/

/-- C1 records a code bug: MotionDetector.detect does return the triple
(annotated frame, motion flag, regions), but the camera loop unpacks it
into the two targets `processed_frame, self.motion_detected`, so for
every frame acquired while the camera is running get_frame raises
`ValueError: too many values to unpack` instead of completing the
motion → face → recording pipeline and returning (frame, motion). -/
theorem C1_get_frame_raises (cam : CamState) (now : Int)
    (contours : List Contour)
    (process_frame : Frame → Bool → Frame × List String)
    (fname : String) (writer_opens : Bool) (h : cam.is_running = true) :
    MockCamera.get_frame cam now contours process_frame fname writer_opens =
      (Except.error (PyErr.valueError "too many values to unpack (expected 2)"),
       cam, []) := by
  unfold MockCamera.get_frame
  rw [if_neg (by simp [h])]
  rfl

/-- C1 witness: a started mock camera raises on its first frame. -/
theorem C1_get_frame_raises_witness :
    ({ MockCamera.init with is_running := true } : CamState).is_running = true ∧
    MockCamera.get_frame { MockCamera.init with is_running := true } 0 []
        (fun f _ => (f, [])) "motion_20250101_000000.mp4" true =
      (Except.error (PyErr.valueError "too many values to unpack (expected 2)"),
       { MockCamera.init with is_running := true }, []) :=
  ⟨rfl, C1_get_frame_raises _ 0 [] _ _ true rfl⟩

/-! ## C2: recorder transitions and recording alerts -/

/-- C2 fails on the code: an Idle → Recording transition of the camera
loop dispatches no recording alert. Concretely, a motion frame on an idle
recorder starts the recorder while the loop's created alert tasks are
exactly the one motion alert — no recording-started task. -/
theorem C2_no_recording_alert_counterexample :
    ({ MockCamera.init with is_running := true } : CamState).recorder.is_recording
        = false ∧
    (get_frame_rest { MockCamera.init with is_running := true } ⟨0, []⟩ true 100
        (fun f _ => (f, [])) "m.mp4" true).2.1.recorder.is_recording = true ∧
    (get_frame_rest { MockCamera.init with is_running := true } ⟨0, []⟩ true 100
        (fun f _ => (f, [])) "m.mp4" true).2.2 =
      [AlertTask.motion "mock_cam" 100] := by
  refine ⟨rfl, ?_, ?_⟩ <;> decide

/-- C2 amended: starting or stopping the recorder in the camera loop
dispatches no recording AlertEvent — the loop's only created alert task
is the motion alert; a recording-started/stopped alert is emitted only
when AlertManager.trigger_recording_alert is itself invoked (which no
camera-loop code does), and then it dispatches the recording event for
each enabled configuration that passes the 60-second throttle gate
outside quiet hours. -/
theorem C2_amended_loop_emits_only_motion (cam : CamState) (pf : Frame)
    (md : Bool) (now : Int) (pfn : Frame → Bool → Frame × List String)
    (fname : String) (wo : Bool) :
    (get_frame_rest cam pf md now pfn fname wo).2.2 =
      (if md then [AlertTask.motion (cam.camera_id.getD "mock_cam") now]
       else []) ∧
    (∀ (m : ThrottleMap) (c : AlertConfiguration) (camera_id : String)
        (started : Bool) (tod : Nat),
      c.recording_alerts_enabled = true →
      (should_send_alert m
          ((if started then "recording_started" else "recording_stopped") ++
            "_" ++ camera_id) now recording_min_seconds).1 = true →
      is_quiet_hours c tod = false →
      (trigger_recording_alert m [c] camera_id started now tod).2 =
        [⟨if started then "recording_started" else "recording_stopped",
          camera_id⟩]) := by
  constructor
  · rfl
  · intro m c camera_id started tod hr ha hq
    simp [trigger_recording_alert, hr, ha, hq]

/-- C2 witness: the loop's task list on a motion frame, and a direct
trigger_recording_alert call dispatching the recording_started event. -/
theorem C2_amended_witness :
    (get_frame_rest { MockCamera.init with is_running := true } ⟨0, []⟩ true 100
        (fun f _ => (f, [])) "m.mp4" true).2.2 =
      [AlertTask.motion "mock_cam" 100] ∧
    (trigger_recording_alert [] [⟨true, true, 300, false, none, none⟩]
        "cam1" true 100 720).2 = [⟨"recording_started", "cam1"⟩] := by
  have h := C2_amended_loop_emits_only_motion
    { MockCamera.init with is_running := true } ⟨0, []⟩ true 100
    (fun f _ => (f, [])) "m.mp4" true
  exact ⟨h.1, h.2 [] ⟨true, true, 300, false, none, none⟩ "cam1" true 720
    rfl (by decide) (by decide)⟩

/-! ## C8: at most one active recording session -/

/-- C8: Recorder.start while recording is a no-op changing no recorder
state; the camera loop's recording logic opens a session only when none
is active and motion is detected, and closes an active one only when
motion is absent and has been absent for longer than the configured
post-motion cooldown, whose default is 5 seconds. -/
theorem C8_single_active_session (r : RecorderState) (now : Int)
    (fname : String) (wo : Bool) (cam : CamState) (md : Bool) (pf : Frame) :
    (r.is_recording = true → Recorder.start r now fname wo = r) ∧
    ((recording_logic cam md now pf fname wo).1.recorder.is_recording = true →
      cam.recorder.is_recording = false → md = true) ∧
    ((recording_logic cam md now pf fname wo).1.recorder.is_recording = false →
      cam.recorder.is_recording = true →
      md = false ∧ cam.post_motion_cooldown < now - cam.last_motion_time) ∧
    MockCamera.init.post_motion_cooldown = 5 := by
  refine ⟨fun h => by simp [Recorder.start, h], ?_, ?_, rfl⟩
  · intro hafter hbefore
    cases md with
    | true => rfl
    | false =>
      exfalso
      simp [recording_logic, hbefore] at hafter
  · intro hafter hbefore
    cases md with
    | true =>
      exfalso
      simp [recording_logic, hbefore, Recorder.write] at hafter
      split at hafter <;> simp_all
    | false =>
      refine ⟨rfl, ?_⟩
      by_cases hcool : cam.post_motion_cooldown < now - cam.last_motion_time
      · exact hcool
      · exfalso
        simp [recording_logic, hbefore, hcool, Recorder.write] at hafter
        split at hafter <;> simp_all

/-- C8 witness: a second start during a session is the identity, and a
silent frame 10 seconds after the last motion closes the session. -/
theorem C8_single_active_session_witness :
    Recorder.start ⟨true, true, "f.mp4", 3, [], some 0⟩ 9 "g.mp4" true =
      ⟨true, true, "f.mp4", 3, [], some 0⟩ ∧
    ((false : Bool) = false ∧
      (5 : Int) < 10 - 0) := by
  constructor
  · exact (C8_single_active_session ⟨true, true, "f.mp4", 3, [], some 0⟩ 9
      "g.mp4" true MockCamera.init false ⟨0, []⟩).1 rfl
  · exact (C8_single_active_session ⟨true, true, "f.mp4", 3, [], some 0⟩ 10
      "g.mp4" true
      ⟨true, none, 500, false, ⟨true, true, "f.mp4", 3, [], some 0⟩, 0, 5,
       true, [], 640, 480⟩
      false ⟨0, []⟩).2.2.1 (by decide) rfl

/-! ## C5: gallery matching -/

theorem getD_map_decide (ds : List ℚ) (tol : ℚ) (i : Nat)
    (hi : i < ds.length) :
    (ds.map (fun d => decide (d ≤ tol))).getD i false =
      decide (ds.getD i 0 ≤ tol) := by
  rw [List.getD_eq_getElem _ _ (by simpa using hi),
      List.getD_eq_getElem _ _ hi]
  simp

/-- C5 amended: for a non-empty gallery, recognition computes the
distance to every entry and takes the first arg-min index; the label is
"Unknown" when the minimal distance exceeds the tolerance and the arg-min
entry's name otherwise, and the reported confidence is 1 - min distance
when matched but 0.0 when "Unknown". (A query at distance 0 from an entry
labeled "A" with nonnegative tolerance therefore yields ("A", 1.0) — the
witness instantiates this.) -/
theorem C5_amended_argmin_match (encs : List Int) (names : List String)
    (tol : ℚ) (dist : Int → Int → ℚ) (q : Int) (ds : List ℚ)
    (hds : ds = encs.map (fun e => dist e q)) (hne : encs ≠ []) :
    np_argmin ds < ds.length ∧
    (∀ j, j < ds.length → ds.getD (np_argmin ds) 0 ≤ ds.getD j 0) ∧
    match_known_faces encs names tol dist q =
      (if ds.getD (np_argmin ds) 0 ≤ tol
       then (names.getD (np_argmin ds) "Unknown", 1 - ds.getD (np_argmin ds) 0)
       else ("Unknown", 0)) := by
  subst hds
  cases encs with
  | nil => exact absurd rfl hne
  | cons e0 es =>
    have hmc : (e0 :: es).map (fun e => dist e q) =
        dist e0 q :: es.map (fun e => dist e q) := List.map_cons _ _ _
    have hlt : np_argmin ((e0 :: es).map (fun e => dist e q)) <
        ((e0 :: es).map (fun e => dist e q)).length := by
      rw [hmc]; exact np_argmin_lt _ _
    refine ⟨hlt, ?_, ?_⟩
    · intro j hj
      rw [hmc] at hj ⊢
      exact np_argmin_is_min _ _ j hj
    · simp only [match_known_faces]
      rw [if_pos (by simp)]
      rw [getD_map_decide _ tol _ hlt]
      by_cases hc : ((e0 :: es).map (fun e => dist e q)).getD
          (np_argmin ((e0 :: es).map (fun e => dist e q))) 0 ≤ tol
      · rw [if_pos (by simpa using hc), if_pos hc]
      · rw [if_neg (by simpa using hc), if_neg hc]

/-- C5 fails on the code in the "Unknown" branch: with one gallery entry
at distance 3/4 and tolerance 1/2, the label is "Unknown" and the code
reports confidence 0.0, whereas the claim's "confidence equals 1 - min
distance" would give 1/4 ≠ 0. -/
theorem C5_unknown_confidence_counterexample :
    match_known_faces [0] ["A"] (1/2) (fun _ _ => 3/4) 0 = ("Unknown", 0) ∧
    (1 : ℚ) - 3/4 ≠ 0 := by
  have hlt : ¬ ((3 : ℚ)/4 ≤ 1/2) := by norm_num
  constructor
  · simp [match_known_faces, np_argmin, hlt]
    norm_num
  · norm_num

/-- C5 witness: the gallery entry 7 labeled "A" queried with 7 under the
absolute-difference distance matches "A" with confidence 1.0. -/
theorem C5_amended_witness :
    match_known_faces [7] ["A"] (1/2)
        (fun x y => ((x - y).natAbs : ℚ)) 7 = ("A", 1) := by
  have h := (C5_amended_argmin_match [7] ["A"] (1/2)
      (fun x y => ((x - y).natAbs : ℚ)) 7 _ rfl (by decide)).2.2
  rw [h]
  norm_num [np_argmin]

/-! ## C7: training contributions -/

/-- C7 amended: a scanned image with zero faces contributes no gallery
entry; an image with at least one face contributes exactly one
(embedding, label) entry labeled with its folder name, whose embedding is
that of the first face the detector returned (not the largest by area);
the rebuilt gallery is persisted as the record
{encodings, names, threshold, method}. -/
theorem C7_training_contributions (person_name : String)
    (images : List TrainImage) (img : TrainImage) (st : FRState)
    (folders : List FolderEntry)
    (himg : is_image_file img.filename = true)
    (hload : img.load_fails = false) :
    train_person_images person_name (images ++ [img]) =
      train_person_images person_name images ++
        (match img.faces with
         | [] => []
         | f :: _ => [(f.encoding, person_name)]) ∧
    (train_and_save st folders).2 =
      ⟨(train_face_recognition folders).1,
       (train_face_recognition folders).2.1,
       st.recognition_threshold, st.detection_method⟩ := by
  constructor
  · show (images ++ [img]).foldl _ [] = _
    rw [List.foldl_append]
    simp only [List.foldl_cons, List.foldl_nil]
    cases hf : img.faces with
    | nil => simp [himg, hload, hf, train_person_images]
    | cons f fs => simp [himg, hload, hf, train_person_images]
  · rfl

/-- C7 fails on the code for the largest-by-area selection: an image
whose detector output lists a small face (area 1, embedding 10) before a
larger one (area 5, embedding 20) contributes embedding 10 — the first
face — while the specification's largest-by-area pick would be 20. -/
theorem C7_first_face_counterexample :
    train_person_images "alice" [⟨"a.jpg", false, [⟨1, 10⟩, ⟨5, 20⟩]⟩] =
      [(10, "alice")] ∧
    spec_pick_largest [⟨1, 10⟩, ⟨5, 20⟩] = some 20 ∧
    (10 : Int) ≠ 20 := by
  refine ⟨by decide, by decide, by decide⟩

/-- C7 witness: one image with two faces contributes exactly the first
face's embedding under the folder label. -/
theorem C7_training_contributions_witness :
    is_image_file "b.png" = true ∧
    train_person_images "bob" ([] ++ [⟨"b.png", false, [⟨2, 33⟩, ⟨9, 44⟩]⟩]) =
      [(33, "bob")] := by
  refine ⟨by decide, ?_⟩
  have h := (C7_training_contributions "bob" []
      ⟨"b.png", false, [⟨2, 33⟩, ⟨9, 44⟩]⟩ ⟨[], [], 1/2, "hog", 0, none⟩ []
      (by decide) rfl).1
  simpa using h

/-! ## C10: empty gallery passthrough -/

/-- C10: with an empty gallery of known encodings,
recognize_faces_in_frame returns the input frame unchanged and the empty
detection list without consulting the detector (the result is the same
for every detector), and the recognition statistics
(recognitions_today, last_recognition) are left untouched. -/
theorem C10_empty_gallery_passthrough (st : FRState) (frame : Frame)
    (detector : Frame → String → List (FaceLocation × Int))
    (dist : Int → Int → ℚ) (now : Int)
    (h : st.known_face_encodings = []) :
    recognize_faces_in_frame st frame detector dist now = (frame, [], st) := by
  simp [recognize_faces_in_frame, h]

/-- C10 witness: an empty-gallery manager with nonzero statistics and a
detector that would report a face still passes the frame through
untouched. -/
theorem C10_empty_gallery_witness :
    recognize_faces_in_frame ⟨[], [], 1/2, "hog", 5, some 3⟩ ⟨7, []⟩
        (fun _ _ => [(⟨1, 2, 3, 4⟩, 99)]) (fun _ _ => 0) 42 =
      (⟨7, []⟩, [], ⟨[], [], 1/2, "hog", 5, some 3⟩) :=
  C10_empty_gallery_passthrough ⟨[], [], 1/2, "hog", 5, some 3⟩ ⟨7, []⟩
    (fun _ _ => [(⟨1, 2, 3, 4⟩, 99)]) (fun _ _ => 0) 42 rfl

/-! ## C9: the connection manager cap invariant -/

theorem WSManager.connect_eq_of_cap (st : WSState) (u0 : Int) (n : String)
    (cid : String)
    (h : st.max_connections_per_user ≤ user_connection_count st u0) :
    WSManager.connect st u0 n cid = (false, st) := by
  unfold WSManager.connect
  rw [if_pos h]

theorem WSManager.connect_eq_of_lt (st : WSState) (u0 : Int) (n : String)
    (cid : String)
    (h : user_connection_count st u0 < st.max_connections_per_user) :
    WSManager.connect st u0 n cid =
      (true,
       { st with
         active_connections := pySet st.active_connections cid ⟨u0, n⟩,
         user_connections := pySet st.user_connections u0
           (pySetAdd ((pyGet st.user_connections u0).getD []) cid) }) := by
  unfold WSManager.connect
  rw [if_neg (by omega)]

theorem WSManager.disconnect_eq_none (st : WSState) (cid : String)
    (h : pyGet st.active_connections cid = none) :
    WSManager.disconnect st cid = st := by
  unfold WSManager.disconnect
  rw [h]

theorem WSManager.disconnect_eq_some (st : WSState) (cid : String)
    (conn : WSConn) (h : pyGet st.active_connections cid = some conn) :
    WSManager.disconnect st cid =
      { st with
        active_connections := pyDel st.active_connections cid,
        user_connections :=
          match pyGet st.user_connections conn.user_id with
          | none => st.user_connections
          | some s =>
            if (pySetDiscard s cid).length = 0 then
              pyDel st.user_connections conn.user_id
            else pySet st.user_connections conn.user_id (pySetDiscard s cid) } := by
  unfold WSManager.disconnect
  rw [h]

theorem ws_invariant (st : WSState) (h : WSReachable st) :
    ∀ u, user_connection_count st u ≤ st.max_connections_per_user := by
  induction h with
  | init cap =>
    intro u
    simp [WSManager.init, user_connection_count, pyGet]
  | connect st u0 n cid hst ih =>
    intro u
    by_cases hcap : st.max_connections_per_user ≤ user_connection_count st u0
    · rw [WSManager.connect_eq_of_cap st u0 n cid hcap]
      exact ih u
    · rw [WSManager.connect_eq_of_lt st u0 n cid (by omega)]
      by_cases hu : u = u0
      · subst hu
        unfold user_connection_count
        simp only
        rw [pyGet_pySet_self]
        have h1 := pySetAdd_length ((pyGet st.user_connections u).getD []) cid
        have h2 : user_connection_count st u <
            st.max_connections_per_user := by omega
        unfold user_connection_count at h2
        simp only [Option.getD_some]
        omega
      · unfold user_connection_count
        simp only
        rw [pyGet_pySet_ne _ _ _ _ hu]
        exact ih u
  | disconnect st cid hst ih =>
    intro u
    cases hc : pyGet st.active_connections cid with
    | none =>
      rw [WSManager.disconnect_eq_none st cid hc]
      exact ih u
    | some conn =>
      rw [WSManager.disconnect_eq_some st cid conn hc]
      cases hs : pyGet st.user_connections conn.user_id with
      | none =>
        unfold user_connection_count
        simp only [hs]
        exact ih u
      | some s =>
        by_cases hz : (pySetDiscard s cid).length = 0
        · unfold user_connection_count
          simp only [hs, if_pos hz]
          by_cases hu : u = conn.user_id
          · subst hu
            rw [pyGet_pyDel_self]
            simp
          · rw [pyGet_pyDel_ne _ _ _ hu]
            exact ih u
        · unfold user_connection_count
          simp only [hs, if_neg hz]
          by_cases hu : u = conn.user_id
          · subst hu
            rw [pyGet_pySet_self]
            have h1 := pySetDiscard_length s cid
            have h2 := ih conn.user_id
            unfold user_connection_count at h2
            rw [hs] at h2
            simp only [Option.getD_some] at h2 ⊢
            omega
          · rw [pyGet_pySet_ne _ _ _ _ hu]
            exact ih u

/-- C9: in every reachable connection-manager state each user's
connection count is at most the configured cap; a connect for a user at
(or above) the cap returns False and leaves the state — both indices —
entirely unchanged; and a disconnect of a registered connection removes
exactly that connection from the id index and from its user's set,
leaving every other connection id and every other user's entry as they
were. -/
theorem C9_connection_cap (st : WSState) :
    (WSReachable st →
      ∀ u, user_connection_count st u ≤ st.max_connections_per_user) ∧
    (∀ u n cid, st.max_connections_per_user ≤ user_connection_count st u →
      WSManager.connect st u n cid = (false, st)) ∧
    (∀ cid conn, pyGet st.active_connections cid = some conn →
      pyGet (WSManager.disconnect st cid).active_connections cid = none ∧
      (∀ cid2, cid2 ≠ cid →
        pyGet (WSManager.disconnect st cid).active_connections cid2 =
          pyGet st.active_connections cid2) ∧
      (∀ cid2, cid2 ≠ cid →
        (cid2 ∈ (pyGet (WSManager.disconnect st cid).user_connections
            conn.user_id).getD [] ↔
         cid2 ∈ (pyGet st.user_connections conn.user_id).getD [])) ∧
      (∀ u, u ≠ conn.user_id →
        pyGet (WSManager.disconnect st cid).user_connections u =
          pyGet st.user_connections u)) := by
  refine ⟨ws_invariant st, ?_, ?_⟩
  · intro u n cid h
    exact WSManager.connect_eq_of_cap st u n cid h
  · intro cid conn hc
    rw [WSManager.disconnect_eq_some st cid conn hc]
    refine ⟨pyGet_pyDel_self _ _, fun cid2 h2 => pyGet_pyDel_ne _ _ _ h2,
      ?_, ?_⟩
    · intro cid2 h2
      cases hs : pyGet st.user_connections conn.user_id with
      | none => simp [hs]
      | some s =>
        simp only [hs]
        by_cases hz : (pySetDiscard s cid).length = 0
        · rw [if_pos hz]
          simp only [pyGet_pyDel_self, Option.getD_none, Option.getD_some,
            List.not_mem_nil, false_iff]
          intro hmem
          exact h2 (pySetDiscard_eq_nil_subset s cid hz cid2 hmem)
        · rw [if_neg hz]
          rw [pyGet_pySet_self]
          simp only [Option.getD_some]
          rw [mem_pySetDiscard]
          exact ⟨fun hx => hx.1, fun hx => ⟨hx, h2⟩⟩
    · intro u hu
      cases hs : pyGet st.user_connections conn.user_id with
      | none => simp [hs]
      | some s =>
        simp only [hs]
        by_cases hz : (pySetDiscard s cid).length = 0
        · rw [if_pos hz]
          exact pyGet_pyDel_ne _ _ _ hu
        · rw [if_neg hz]
          exact pyGet_pySet_ne _ _ _ _ hu

/-- C9 witness: with a cap of 1, a second connection for the same user is
rejected and the state is unchanged. -/
theorem C9_connection_cap_witness :
    1 ≤ user_connection_count
        ((WSManager.connect (WSManager.init 1) 1 "u" "c1").2) 1 ∧
    WSManager.connect ((WSManager.connect (WSManager.init 1) 1 "u" "c1").2)
        1 "u" "c2" =
      (false, (WSManager.connect (WSManager.init 1) 1 "u" "c1").2) := by
  refine ⟨by decide, ?_⟩
  exact (C9_connection_cap _).2.1 1 "u" "c2" (by decide)
